import Mathlib

/-!
Shallow embedding of the `elf` crate: the identification block, the ELF file
header view, the program-header entry view, the per-class layout capabilities
(`Class32`, `Class64`, `Merge`), and the top-level `ElfFile::parse` pipeline.
Buffers are `List Nat` of byte values; machine scalars are decoded to `Nat`
(unsigned) or `Int` (signed, two's complement).
-/

set_option autoImplicit false

deriving instance DecidableEq for Except

namespace Elf

/-- The byte stored at index `i` of a buffer, reduced into the `u8` range
(an out-of-range index reads as `0`; the safety claim shows every read of a
constructed view stays in bounds). -/
def byteAt (data : List Nat) (i : Nat) : Nat := data.getD i 0 % 256

/-- Little-endian read of `n` bytes starting at `off`, least significant
byte first (`uN::from_le_bytes`). -/
def readLE (data : List Nat) (off : Nat) : Nat → Nat
  | 0 => 0
  | n + 1 => byteAt data off + 256 * readLE data (off + 1) n

/-- Big-endian read of `n` bytes starting at `off`, most significant byte
first (`uN::from_be_bytes`). -/
def readBE (data : List Nat) (off : Nat) : Nat → Nat
  | 0 => 0
  | n + 1 => readBE data off n * 256 + byteAt data (off + n)

/-- Two's-complement reinterpretation of an unsigned `w`-bit value as a
signed integer (`iN::from_*_bytes`). -/
def toSigned (w n : Nat) : Int :=
  if n < 2 ^ (w - 1) then (n : Int) else (n : Int) - 2 ^ w

/-- `UnsupportedClassError(Class)`: carries the offending raw class tag. -/
structure UnsupportedClassError where
  tag : Nat
  deriving DecidableEq

/-- `UnsupportedEncodingError(Encoding)`: carries the offending raw encoding
tag. -/
structure UnsupportedEncodingError where
  tag : Nat
  deriving DecidableEq

/-- Modelled from the spec: the `encoding` module is not among the staged
sources; this dictionary is the `EncodingParse` trait contract of section
4.2 — `from_encoding_tag` resolving a raw tag, and fixed-width scalar
decodes at a byte offset per this encoding's byte order. -/
structure EncodingD (ε : Type) where
  from_elf_encoding : Nat → Except UnsupportedEncodingError ε
  parse_u16_at : ε → Nat → List Nat → Nat
  parse_u32_at : ε → Nat → List Nat → Nat
  parse_u64_at : ε → Nat → List Nat → Nat
  parse_i32_at : ε → Nat → List Nat → Int
  parse_i64_at : ε → Nat → List Nat → Int

/-- The zero-sized little-endian encoding capability value. -/
inductive LittleEndian : Type
  | mk
  deriving DecidableEq

/-- The zero-sized big-endian encoding capability value. -/
inductive BigEndian : Type
  | mk
  deriving DecidableEq

/-- Modelled from the spec: the little-endian `EncodingParse` implementation;
tag `1` is the little-endian encoding tag (section 6, Scenario A has
`encoding=1` for a little-endian file). -/
def littleEndianD : EncodingD LittleEndian where
  from_elf_encoding tag := if tag = 1 then .ok .mk else .error ⟨tag⟩
  parse_u16_at _ off data := readLE data off 2
  parse_u32_at _ off data := readLE data off 4
  parse_u64_at _ off data := readLE data off 8
  parse_i32_at _ off data := toSigned 32 (readLE data off 4)
  parse_i64_at _ off data := toSigned 64 (readLE data off 8)

/-- Modelled from the spec: the big-endian `EncodingParse` implementation;
tag `2` is the big-endian encoding tag. -/
def bigEndianD : EncodingD BigEndian where
  from_elf_encoding tag := if tag = 2 then .ok .mk else .error ⟨tag⟩
  parse_u16_at _ off data := readBE data off 2
  parse_u32_at _ off data := readBE data off 4
  parse_u64_at _ off data := readBE data off 8
  parse_i32_at _ off data := toSigned 32 (readBE data off 4)
  parse_i64_at _ off data := toSigned 64 (readBE data off 8)

/-! `repr(C)` layout arithmetic, as `mem::offset_of!` and `mem::size_of`
compute offsets and sizes for the header and program-header structs. -/

/-- The smallest multiple of `a` that is at least `n` (field alignment). -/
def alignUp (n a : Nat) : Nat := if a = 0 then n else (n + a - 1) / a * a

/-- `repr(C)` field offsets of a struct whose fields have the given
(size, alignment) pairs, starting the first field at `cur`. -/
def reprCOffsets (cur : Nat) : List (Nat × Nat) → List Nat
  | [] => []
  | (sz, al) :: rest => alignUp cur al :: reprCOffsets (alignUp cur al + sz) rest

/-- The end of the last `repr(C)` field. -/
def reprCEnd (cur : Nat) : List (Nat × Nat) → Nat
  | [] => cur
  | (sz, al) :: rest => reprCEnd (alignUp cur al + sz) rest

/-- `repr(C)` struct size: the end of the last field rounded up to the
struct alignment, which is the largest field alignment. -/
def reprCSize (fields : List (Nat × Nat)) : Nat :=
  alignUp (reprCEnd 0 fields) (fields.foldr (fun f m => max f.2 m) 1)

/-! The class capability family: `ClassParseBase` + `ClassParseElfHeader` +
`ClassParseProgramHeader` as one dictionary, with the `Class32`, `Class64`
and `Merge` implementations of `class/class_32.rs`, `class/class_64.rs` and
`class/merge.rs`. -/

/-- The full `ClassParse` trait surface as a dictionary over the class
capability type `α`: tag resolution and address-sized decoding
(`ClassParseBase`), the per-field header offsets and expected header size
(`ClassParseElfHeader`), and the per-field program-header offsets and
expected entry size (`ClassParseProgramHeader`). -/
structure ClassParseD (α : Type) where
  from_elf_class : Nat → Except UnsupportedClassError α
  parse_class_usize_at : {ε : Type} → EncodingD ε → α → ε → Nat → List Nat → Nat
  parse_class_isize_at : {ε : Type} → EncodingD ε → α → ε → Nat → List Nat → Int
  elf_type_offset : α → Nat
  machine_offset : α → Nat
  file_version_offset : α → Nat
  entry_offset : α → Nat
  flags_offset : α → Nat
  header_size_offset : α → Nat
  program_header_offset_offset : α → Nat
  program_header_count_offset : α → Nat
  program_header_size_offset : α → Nat
  section_header_offset_offset : α → Nat
  section_header_count_offset : α → Nat
  section_header_size_offset : α → Nat
  section_header_string_table_index_offset : α → Nat
  expected_elf_header_size : α → Nat
  segment_type_offset : α → Nat
  segment_flags_offset : α → Nat
  segment_file_offset_offset : α → Nat
  segment_file_size_offset : α → Nat
  segment_virtual_address_offset : α → Nat
  segment_physical_address_offset : α → Nat
  segment_memory_size_offset : α → Nat
  segment_alignment_offset : α → Nat
  expected_program_header_size : α → Nat

/-- The zero-sized 32-bit class capability value. -/
inductive Class32 : Type
  | mk
  deriving DecidableEq

/-- The zero-sized 64-bit class capability value. -/
inductive Class64 : Type
  | mk
  deriving DecidableEq

/-- `Merge<A, B>`: a runtime choice between two class capabilities. -/
inductive Merge (α β : Type) : Type
  | A (a : α)
  | B (b : β)
  deriving DecidableEq

/-- (size, alignment) of each field of `Elf32Header`, in source order:
identifier, elf_type, machine, file_version, entry, program_header_offset,
section_header_offset, flags, header_size, program_header_size,
program_header_count, section_header_size, section_header_count,
section_header_string_table_index. `DefElfIdent` (the 16-byte
identification block, spec section 3) has size 16 and alignment 1;
`ElfType` and `Machine` are `repr(transparent)` over `u16`. -/
def elf32HeaderFields : List (Nat × Nat) :=
  [(16, 1), (2, 2), (2, 2), (4, 4), (4, 4), (4, 4), (4, 4), (4, 4),
   (2, 2), (2, 2), (2, 2), (2, 2), (2, 2), (2, 2)]

/-- (size, alignment) of each field of `Elf64Header`, in the same source
order; the address-sized fields entry, program_header_offset and
section_header_offset are `u64`. -/
def elf64HeaderFields : List (Nat × Nat) :=
  [(16, 1), (2, 2), (2, 2), (4, 4), (8, 8), (8, 8), (8, 8), (4, 4),
   (2, 2), (2, 2), (2, 2), (2, 2), (2, 2), (2, 2)]

/-- (size, alignment) of each field of `Elf32ProgramHeader`, in source
order: segment_type, file_offset, virtual_address, physical_address,
file_size, memory_size, flags, alignment; `SegmentType` and `SegmentFlags`
are `repr(transparent)` over `u32`. -/
def elf32ProgramHeaderFields : List (Nat × Nat) :=
  [(4, 4), (4, 4), (4, 4), (4, 4), (4, 4), (4, 4), (4, 4), (4, 4)]

/-- (size, alignment) of each field of `Elf64ProgramHeader`, in source
order: segment_type, flags, file_offset, virtual_address, physical_address,
file_size, memory_size, alignment. -/
def elf64ProgramHeaderFields : List (Nat × Nat) :=
  [(4, 4), (4, 4), (8, 8), (8, 8), (8, 8), (8, 8), (8, 8), (8, 8)]

/-- `mem::offset_of!` of field number `i` of `Elf32Header`. -/
def elf32HeaderOffset (i : Nat) : Nat := (reprCOffsets 0 elf32HeaderFields).getD i 0

/-- `mem::offset_of!` of field number `i` of `Elf64Header`. -/
def elf64HeaderOffset (i : Nat) : Nat := (reprCOffsets 0 elf64HeaderFields).getD i 0

/-- `mem::offset_of!` of field number `i` of `Elf32ProgramHeader`. -/
def elf32ProgramHeaderOffset (i : Nat) : Nat :=
  (reprCOffsets 0 elf32ProgramHeaderFields).getD i 0

/-- `mem::offset_of!` of field number `i` of `Elf64ProgramHeader`. -/
def elf64ProgramHeaderOffset (i : Nat) : Nat :=
  (reprCOffsets 0 elf64ProgramHeaderFields).getD i 0

/-- The `ClassParse` implementation of `Class32` (`class/class_32.rs`):
`from_elf_class` accepts exactly `Class::CLASS32` (raw tag 1), address-sized
scalars decode as `u32`/`i32`, and every offset is the `repr(C)` offset of
the corresponding `Elf32Header`/`Elf32ProgramHeader` field. -/
def class32D : ClassParseD Class32 where
  from_elf_class tag := if tag = 1 then .ok .mk else .error ⟨tag⟩
  parse_class_usize_at ed _ e off data := ed.parse_u32_at e off data
  parse_class_isize_at ed _ e off data := ed.parse_i32_at e off data
  elf_type_offset _ := elf32HeaderOffset 1
  machine_offset _ := elf32HeaderOffset 2
  file_version_offset _ := elf32HeaderOffset 3
  entry_offset _ := elf32HeaderOffset 4
  flags_offset _ := elf32HeaderOffset 7
  header_size_offset _ := elf32HeaderOffset 8
  program_header_offset_offset _ := elf32HeaderOffset 5
  program_header_count_offset _ := elf32HeaderOffset 10
  program_header_size_offset _ := elf32HeaderOffset 9
  section_header_offset_offset _ := elf32HeaderOffset 6
  section_header_count_offset _ := elf32HeaderOffset 12
  section_header_size_offset _ := elf32HeaderOffset 11
  section_header_string_table_index_offset _ := elf32HeaderOffset 13
  expected_elf_header_size _ := reprCSize elf32HeaderFields
  segment_type_offset _ := elf32ProgramHeaderOffset 0
  segment_flags_offset _ := elf32ProgramHeaderOffset 6
  segment_file_offset_offset _ := elf32ProgramHeaderOffset 1
  segment_file_size_offset _ := elf32ProgramHeaderOffset 4
  segment_virtual_address_offset _ := elf32ProgramHeaderOffset 2
  segment_physical_address_offset _ := elf32ProgramHeaderOffset 3
  segment_memory_size_offset _ := elf32ProgramHeaderOffset 5
  segment_alignment_offset _ := elf32ProgramHeaderOffset 7
  expected_program_header_size _ := reprCSize elf32ProgramHeaderFields

/-- The `ClassParse` implementation of `Class64` (`class/class_64.rs`):
`from_elf_class` accepts exactly `Class::CLASS64` (raw tag 2), address-sized
scalars decode as `u64`/`i64`, and every offset is the `repr(C)` offset of
the corresponding `Elf64Header`/`Elf64ProgramHeader` field. -/
def class64D : ClassParseD Class64 where
  from_elf_class tag := if tag = 2 then .ok .mk else .error ⟨tag⟩
  parse_class_usize_at ed _ e off data := ed.parse_u64_at e off data
  parse_class_isize_at ed _ e off data := ed.parse_i64_at e off data
  elf_type_offset _ := elf64HeaderOffset 1
  machine_offset _ := elf64HeaderOffset 2
  file_version_offset _ := elf64HeaderOffset 3
  entry_offset _ := elf64HeaderOffset 4
  flags_offset _ := elf64HeaderOffset 7
  header_size_offset _ := elf64HeaderOffset 8
  program_header_offset_offset _ := elf64HeaderOffset 5
  program_header_count_offset _ := elf64HeaderOffset 10
  program_header_size_offset _ := elf64HeaderOffset 9
  section_header_offset_offset _ := elf64HeaderOffset 6
  section_header_count_offset _ := elf64HeaderOffset 12
  section_header_size_offset _ := elf64HeaderOffset 11
  section_header_string_table_index_offset _ := elf64HeaderOffset 13
  expected_elf_header_size _ := reprCSize elf64HeaderFields
  segment_type_offset _ := elf64ProgramHeaderOffset 0
  segment_flags_offset _ := elf64ProgramHeaderOffset 1
  segment_file_offset_offset _ := elf64ProgramHeaderOffset 2
  segment_file_size_offset _ := elf64ProgramHeaderOffset 5
  segment_virtual_address_offset _ := elf64ProgramHeaderOffset 3
  segment_physical_address_offset _ := elf64ProgramHeaderOffset 4
  segment_memory_size_offset _ := elf64ProgramHeaderOffset 6
  segment_alignment_offset _ := elf64ProgramHeaderOffset 7
  expected_program_header_size _ := reprCSize elf64ProgramHeaderFields

/-- The `ClassParse` implementation of `Merge<A, B>` (`class/merge.rs`):
`from_elf_class` tries `A` first and keeps `A`'s success even when `B`
would also accept; every offset and size dispatches to the matched arm;
scalar decodes on the `A` arm are widened through `B`'s `From`
implementations, passed here as `wu` (for `ClassUsize`) and `wi` (for
`ClassIsize`). -/
def mergeD {α β : Type} (a : ClassParseD α) (b : ClassParseD β)
    (wu : Nat → Nat) (wi : Int → Int) : ClassParseD (Merge α β) where
  from_elf_class tag :=
    match a.from_elf_class tag with
    | .ok x => .ok (.A x)
    | .error _ => (b.from_elf_class tag).map .B
  parse_class_usize_at ed m e off data :=
    match m with
    | .A x => wu (a.parse_class_usize_at ed x e off data)
    | .B x => b.parse_class_usize_at ed x e off data
  parse_class_isize_at ed m e off data :=
    match m with
    | .A x => wi (a.parse_class_isize_at ed x e off data)
    | .B x => b.parse_class_isize_at ed x e off data
  elf_type_offset m :=
    match m with
    | .A x => a.elf_type_offset x
    | .B x => b.elf_type_offset x
  machine_offset m :=
    match m with
    | .A x => a.machine_offset x
    | .B x => b.machine_offset x
  file_version_offset m :=
    match m with
    | .A x => a.file_version_offset x
    | .B x => b.file_version_offset x
  entry_offset m :=
    match m with
    | .A x => a.entry_offset x
    | .B x => b.entry_offset x
  flags_offset m :=
    match m with
    | .A x => a.flags_offset x
    | .B x => b.flags_offset x
  header_size_offset m :=
    match m with
    | .A x => a.header_size_offset x
    | .B x => b.header_size_offset x
  program_header_offset_offset m :=
    match m with
    | .A x => a.program_header_offset_offset x
    | .B x => b.program_header_offset_offset x
  program_header_count_offset m :=
    match m with
    | .A x => a.program_header_count_offset x
    | .B x => b.program_header_count_offset x
  program_header_size_offset m :=
    match m with
    | .A x => a.program_header_size_offset x
    | .B x => b.program_header_size_offset x
  section_header_offset_offset m :=
    match m with
    | .A x => a.section_header_offset_offset x
    | .B x => b.section_header_offset_offset x
  section_header_count_offset m :=
    match m with
    | .A x => a.section_header_count_offset x
    | .B x => b.section_header_count_offset x
  section_header_size_offset m :=
    match m with
    | .A x => a.section_header_size_offset x
    | .B x => b.section_header_size_offset x
  section_header_string_table_index_offset m :=
    match m with
    | .A x => a.section_header_string_table_index_offset x
    | .B x => b.section_header_string_table_index_offset x
  expected_elf_header_size m :=
    match m with
    | .A x => a.expected_elf_header_size x
    | .B x => b.expected_elf_header_size x
  segment_type_offset m :=
    match m with
    | .A x => a.segment_type_offset x
    | .B x => b.segment_type_offset x
  segment_flags_offset m :=
    match m with
    | .A x => a.segment_flags_offset x
    | .B x => b.segment_flags_offset x
  segment_file_offset_offset m :=
    match m with
    | .A x => a.segment_file_offset_offset x
    | .B x => b.segment_file_offset_offset x
  segment_file_size_offset m :=
    match m with
    | .A x => a.segment_file_size_offset x
    | .B x => b.segment_file_size_offset x
  segment_virtual_address_offset m :=
    match m with
    | .A x => a.segment_virtual_address_offset x
    | .B x => b.segment_virtual_address_offset x
  segment_physical_address_offset m :=
    match m with
    | .A x => a.segment_physical_address_offset x
    | .B x => b.segment_physical_address_offset x
  segment_memory_size_offset m :=
    match m with
    | .A x => a.segment_memory_size_offset x
    | .B x => b.segment_memory_size_offset x
  segment_alignment_offset m :=
    match m with
    | .A x => a.segment_alignment_offset x
    | .B x => b.segment_alignment_offset x
  expected_program_header_size m :=
    match m with
    | .A x => a.expected_program_header_size x
    | .B x => b.expected_program_header_size x

/-- `From<u32> for u64` on the decoded numeric value: value-preserving
(every `u32` value fits in `u64`). -/
def u64_from_u32 (n : Nat) : Nat := n

/-- `From<i32> for i64` on the decoded numeric value: value-preserving. -/
def i64_from_i32 (i : Int) : Int := i

/-- `Merge<Class32, Class64>` with `u64: From<u32>` and `i64: From<i32>` as
the widenings. -/
def merge32_64D : ClassParseD (Merge Class32 Class64) :=
  mergeD class32D class64D u64_from_u32 i64_from_i32

/-! The identification block (`ident` module, consumed contract). -/

/-- Modelled from the spec: the `ElfIdent` view of the missing `ident`
module (section 4.3) — a window on the 16-byte prefix: 4-byte magic, 1-byte
class tag, 1-byte encoding tag, 1-byte header version, 9 reserved padding
bytes. -/
structure ElfIdent where
  bytes : List Nat
  deriving DecidableEq

namespace ElfIdent

/-- The canonical ELF magic signature `0x7F 'E' 'L' 'F'`. -/
def MAGIC_BYTES : List Nat := [0x7F, 0x45, 0x4C, 0x46]

/-- The one currently defined identification header version. -/
def CURRENT_HEADER_VERSION : Nat := 1

/-- The 4-byte magic signature field. -/
def magic (i : ElfIdent) : List Nat := i.bytes.take 4

/-- The raw class tag (byte 4). `class` is a Lean keyword, hence `cls`. -/
def cls (i : ElfIdent) : Nat := i.bytes.getD 4 0

/-- The raw encoding tag (byte 5). -/
def encoding (i : ElfIdent) : Nat := i.bytes.getD 5 0

/-- The identification header version (byte 6). -/
def header_version (i : ElfIdent) : Nat := i.bytes.getD 6 0

/-- The reserved padding bytes (bytes 7 through 15). -/
def padding (i : ElfIdent) : List Nat := i.bytes.drop 7

/-- Modelled from the spec: the raw identification parse checks only the
buffer length (at least 16 bytes) and keeps the 16-byte prefix. -/
def new (slice : List Nat) : Option ElfIdent :=
  if 16 ≤ slice.length then some ⟨slice.take 16⟩ else none

end ElfIdent

/-- Modelled from the spec: the error type of the minimal identification
parse, `ParseElfIdentMinimalError` (named in `header.rs` but not among the
staged sources). -/
inductive ParseElfIdentMinimalError : Type
  | TooSmall
  | UnsupportedClass (e : UnsupportedClassError)
  | UnsupportedEncoding (e : UnsupportedEncodingError)
  deriving DecidableEq

/-- Modelled from the spec: the minimal identification parse additionally
validates that the class and encoding tags are recognized before exposing
them (section 4.3); the recognized class tags are `CLASS32 = 1` and
`CLASS64 = 2`, the recognized encoding tags `1` (little) and `2` (big). -/
def ElfIdent.minimal_parse (slice : List Nat) :
    Except ParseElfIdentMinimalError ElfIdent :=
  match ElfIdent.new slice with
  | none => .error .TooSmall
  | some i =>
    if i.cls = 1 ∨ i.cls = 2 then
      if i.encoding = 1 ∨ i.encoding = 2 then .ok i
      else .error (.UnsupportedEncoding ⟨i.encoding⟩)
    else .error (.UnsupportedClass ⟨i.cls⟩)

/-! The ELF file header view (`header.rs`). -/

/-- `ElfType(pub u16)`: the type of the ELF file, an opaque tagged
integer. -/
structure ElfType where
  val : Nat
  deriving DecidableEq

namespace ElfType

/-- No type. -/
def NONE : ElfType := ⟨0⟩

/-- Relocatable ELF file. -/
def RELOCATABLE : ElfType := ⟨1⟩

/-- Executable ELF file. -/
def EXECUTABLE : ElfType := ⟨2⟩

/-- Shared object ELF file. -/
def SHARED : ElfType := ⟨3⟩

/-- Core ELF file. -/
def CORE : ElfType := ⟨4⟩

end ElfType

/-- `Machine(pub u16)`: the architecture of the ELF file, an opaque tagged
integer. -/
structure Machine where
  val : Nat
  deriving DecidableEq

namespace Machine

/-- No required machine. -/
def NONE : Machine := ⟨0⟩

/-- Intel 80386. -/
def INTEL_386 : Machine := ⟨3⟩

/-- AArch32. -/
def ARM : Machine := ⟨40⟩

/-- AMD x86_64. -/
def X86_64 : Machine := ⟨62⟩

/-- AArch64. -/
def AARCH64 : Machine := ⟨183⟩

end Machine

/-- The `ElfHeader` view: a window over the header region carrying the
resolved class and encoding capability values. The `Raw` versus
`MinimalParse` type-state marker is phantom data with no runtime content;
here the two depths are distinguished only by which constructor
(`ElfHeader.new` or `ElfHeader.minimal_parse`) produced the view, exactly
as the marker never changes the byte layout. `class` is a Lean keyword,
hence the field name `cls`. -/
structure ElfHeader (α ε : Type) where
  bytes : List Nat
  cls : α
  encoding : ε
  deriving DecidableEq

namespace ElfHeader

variable {α ε : Type}

/-- `identifier()`: the 16-byte prefix via `first_chunk`. The source's
`None => unreachable!()` branch corresponds to `bytes.length < 16`; the
safety claim proves it unreachable for every constructed header, so the
view is built from the (then complete) 16-byte prefix here. -/
def identifier (h : ElfHeader α ε) : ElfIdent := ⟨h.bytes.take 16⟩

/-- The condition under which the `unreachable!()` branch of `identifier()`
would be taken: fewer than 16 bytes behind the view. -/
def identifier_unreachable (h : ElfHeader α ε) : Prop := h.bytes.length < 16

/-- `elf_type()`: `u16` at the class's `elf_type` offset. -/
def elf_type (cd : ClassParseD α) (ed : EncodingD ε) (h : ElfHeader α ε) : ElfType :=
  ⟨ed.parse_u16_at h.encoding (cd.elf_type_offset h.cls) h.bytes⟩

/-- `machine()`: `u16` at the class's `machine` offset. -/
def machine (cd : ClassParseD α) (ed : EncodingD ε) (h : ElfHeader α ε) : Machine :=
  ⟨ed.parse_u16_at h.encoding (cd.machine_offset h.cls) h.bytes⟩

/-- `file_version()`: `u32` at the class's `file_version` offset. -/
def file_version (cd : ClassParseD α) (ed : EncodingD ε) (h : ElfHeader α ε) : Nat :=
  ed.parse_u32_at h.encoding (cd.file_version_offset h.cls) h.bytes

/-- `flags()`: `u32` at the class's `flags` offset. -/
def flags (cd : ClassParseD α) (ed : EncodingD ε) (h : ElfHeader α ε) : Nat :=
  ed.parse_u32_at h.encoding (cd.flags_offset h.cls) h.bytes

/-- `header_size()`: `u16` at the class's `header_size` offset. -/
def header_size (cd : ClassParseD α) (ed : EncodingD ε) (h : ElfHeader α ε) : Nat :=
  ed.parse_u16_at h.encoding (cd.header_size_offset h.cls) h.bytes

/-- `entry()`: class-sized scalar at the class's `entry` offset. -/
def entry (cd : ClassParseD α) (ed : EncodingD ε) (h : ElfHeader α ε) : Nat :=
  cd.parse_class_usize_at ed h.cls h.encoding (cd.entry_offset h.cls) h.bytes

/-- `program_header_offset()`: class-sized scalar. -/
def program_header_offset (cd : ClassParseD α) (ed : EncodingD ε) (h : ElfHeader α ε) : Nat :=
  cd.parse_class_usize_at ed h.cls h.encoding (cd.program_header_offset_offset h.cls) h.bytes

/-- `program_header_count()`: `u16`. -/
def program_header_count (cd : ClassParseD α) (ed : EncodingD ε) (h : ElfHeader α ε) : Nat :=
  ed.parse_u16_at h.encoding (cd.program_header_count_offset h.cls) h.bytes

/-- `program_header_size()`: `u16`. -/
def program_header_size (cd : ClassParseD α) (ed : EncodingD ε) (h : ElfHeader α ε) : Nat :=
  ed.parse_u16_at h.encoding (cd.program_header_size_offset h.cls) h.bytes

/-- `section_header_offset()`: class-sized scalar. -/
def section_header_offset (cd : ClassParseD α) (ed : EncodingD ε) (h : ElfHeader α ε) : Nat :=
  cd.parse_class_usize_at ed h.cls h.encoding (cd.section_header_offset_offset h.cls) h.bytes

/-- `section_header_count()`: `u16`. -/
def section_header_count (cd : ClassParseD α) (ed : EncodingD ε) (h : ElfHeader α ε) : Nat :=
  ed.parse_u16_at h.encoding (cd.section_header_count_offset h.cls) h.bytes

/-- `section_header_size()`: `u16`. -/
def section_header_size (cd : ClassParseD α) (ed : EncodingD ε) (h : ElfHeader α ε) : Nat :=
  ed.parse_u16_at h.encoding (cd.section_header_size_offset h.cls) h.bytes

/-- `section_header_string_table_index()`: `u16`. -/
def section_header_string_table_index (cd : ClassParseD α) (ed : EncodingD ε)
    (h : ElfHeader α ε) : Nat :=
  ed.parse_u16_at h.encoding (cd.section_header_string_table_index_offset h.cls) h.bytes

end ElfHeader

/-- `ParseElfHeaderRawError` (`header.rs`): the only errors of Raw
construction. -/
inductive ParseElfHeaderRawError : Type
  | TooSmall
  | UnsupportedClass (e : UnsupportedClassError)
  | UnsupportedEncoding (e : UnsupportedEncodingError)
  deriving DecidableEq

/-- `ParseElfHeaderMinimalError` (`header.rs`). -/
inductive ParseElfHeaderMinimalError : Type
  | IdentError (e : ParseElfIdentMinimalError)
  | TooSmall
  | UnsupportedClass (e : UnsupportedClassError)
  | UnsupportedEncoding (e : UnsupportedEncodingError)
  | InvalidElfHeaderSize
  deriving DecidableEq

/-- `ElfHeader::new` (`header.rs`): Raw construction — raw identification
parse (length only), class and encoding tag resolution, then the buffer
must be at least the class's expected header size. -/
def ElfHeader.new {α ε : Type} (cd : ClassParseD α) (ed : EncodingD ε)
    (slice : List Nat) : Except ParseElfHeaderRawError (ElfHeader α ε) :=
  match ElfIdent.new slice with
  | none => .error .TooSmall
  | some ident =>
    match cd.from_elf_class ident.cls with
    | .error e => .error (.UnsupportedClass e)
    | .ok c =>
      match ed.from_elf_encoding ident.encoding with
      | .error e => .error (.UnsupportedEncoding e)
      | .ok en =>
        if slice.length < cd.expected_elf_header_size c then .error .TooSmall
        else .ok ⟨slice, c, en⟩

/-- `ElfHeader::minimal_parse` (`header.rs`): minimal identification parse
first (propagating its failure as `IdentError`), then the Raw-level checks,
then the header's self-declared `header_size` must be at least the class's
expected header size. -/
def ElfHeader.minimal_parse {α ε : Type} (cd : ClassParseD α) (ed : EncodingD ε)
    (slice : List Nat) : Except ParseElfHeaderMinimalError (ElfHeader α ε) :=
  match ElfIdent.minimal_parse slice with
  | .error e => .error (.IdentError e)
  | .ok ident =>
    match cd.from_elf_class ident.cls with
    | .error e => .error (.UnsupportedClass e)
    | .ok c =>
      match ed.from_elf_encoding ident.encoding with
      | .error e => .error (.UnsupportedEncoding e)
      | .ok en =>
        if slice.length < cd.expected_elf_header_size c then .error .TooSmall
        else
          let header : ElfHeader α ε := ⟨slice, c, en⟩
          if ElfHeader.header_size cd ed header < cd.expected_elf_header_size c then
            .error .InvalidElfHeaderSize
          else .ok header

/-! The program header entry view (`program_header.rs`). -/

/-- `SegmentType(pub u32)`: the type of a segment, an opaque tagged
integer. -/
structure SegmentType where
  val : Nat
  deriving DecidableEq

namespace SegmentType

/-- Unused program header. -/
def NULL : SegmentType := ⟨0⟩

/-- Loadable segment. -/
def LOAD : SegmentType := ⟨1⟩

/-- Dynamic linking information. -/
def DYNAMIC : SegmentType := ⟨2⟩

/-- The program interpreter. -/
def INTERPRETER : SegmentType := ⟨3⟩

/-- Auxiliary information. -/
def NOTE : SegmentType := ⟨4⟩

/-- Reserved. -/
def SHLIB : SegmentType := ⟨5⟩

/-- Program header table. -/
def PHDR : SegmentType := ⟨6⟩

/-- Thread local storage. -/
def TLS : SegmentType := ⟨7⟩

end SegmentType

/-- `SegmentFlags(pub u32)`: the permissions of a segment. -/
structure SegmentFlags where
  val : Nat
  deriving DecidableEq

namespace SegmentFlags

/-- Executable. -/
def EXECUTE : SegmentFlags := ⟨0x1⟩

/-- Writable. -/
def WRITE : SegmentFlags := ⟨0x2⟩

/-- Readable. -/
def READ : SegmentFlags := ⟨0x4⟩

/-- Bits reserved for operating system specific semantics. -/
def MASK_OS : SegmentFlags := ⟨0x0FF0FFFF⟩

/-- Bits reserved for processor specific semantics. -/
def MASK_PROCESSOR : SegmentFlags := ⟨0xF0000000⟩

end SegmentFlags

/-- The `RawProgramHeader` view: a window over one program-header table
slot carrying the class and encoding capability values. -/
structure RawProgramHeader (α ε : Type) where
  bytes : List Nat
  cls : α
  encoding : ε
  deriving DecidableEq

namespace RawProgramHeader

variable {α ε : Type}

/-- `RawProgramHeader::parse`: `None` when the slice is shorter than the
class's expected program header size, otherwise the view over the slice;
no field value is inspected. -/
def parse (cd : ClassParseD α) (c : α) (e : ε) (slice : List Nat) :
    Option (RawProgramHeader α ε) :=
  if slice.length < cd.expected_program_header_size c then none
  else some ⟨slice, c, e⟩

/-- `segment_type()`: `u32` at the class's `segment_type` offset, kept as a
raw tagged integer. -/
def segment_type (cd : ClassParseD α) (ed : EncodingD ε)
    (ph : RawProgramHeader α ε) : SegmentType :=
  ⟨ed.parse_u32_at ph.encoding (cd.segment_type_offset ph.cls) ph.bytes⟩

/-- `flags()`: `u32` at the class's `segment_flags` offset. -/
def flags (cd : ClassParseD α) (ed : EncodingD ε)
    (ph : RawProgramHeader α ε) : SegmentFlags :=
  ⟨ed.parse_u32_at ph.encoding (cd.segment_flags_offset ph.cls) ph.bytes⟩

/-- `file_offset()`: class-sized scalar. -/
def file_offset (cd : ClassParseD α) (ed : EncodingD ε)
    (ph : RawProgramHeader α ε) : Nat :=
  cd.parse_class_usize_at ed ph.cls ph.encoding (cd.segment_file_offset_offset ph.cls) ph.bytes

/-- `file_size()`: class-sized scalar. -/
def file_size (cd : ClassParseD α) (ed : EncodingD ε)
    (ph : RawProgramHeader α ε) : Nat :=
  cd.parse_class_usize_at ed ph.cls ph.encoding (cd.segment_file_size_offset ph.cls) ph.bytes

/-- `virtual_address()`: class-sized scalar. -/
def virtual_address (cd : ClassParseD α) (ed : EncodingD ε)
    (ph : RawProgramHeader α ε) : Nat :=
  cd.parse_class_usize_at ed ph.cls ph.encoding
    (cd.segment_virtual_address_offset ph.cls) ph.bytes

/-- `physical_address()`: class-sized scalar. -/
def physical_address (cd : ClassParseD α) (ed : EncodingD ε)
    (ph : RawProgramHeader α ε) : Nat :=
  cd.parse_class_usize_at ed ph.cls ph.encoding
    (cd.segment_physical_address_offset ph.cls) ph.bytes

/-- `memory_size()`: class-sized scalar. -/
def memory_size (cd : ClassParseD α) (ed : EncodingD ε)
    (ph : RawProgramHeader α ε) : Nat :=
  cd.parse_class_usize_at ed ph.cls ph.encoding (cd.segment_memory_size_offset ph.cls) ph.bytes

/-- `alignment()`: class-sized scalar. -/
def alignment (cd : ClassParseD α) (ed : EncodingD ε)
    (ph : RawProgramHeader α ε) : Nat :=
  cd.parse_class_usize_at ed ph.cls ph.encoding (cd.segment_alignment_offset ph.cls) ph.bytes

end RawProgramHeader

/-! The top-level file validator (`lib.rs`). -/

/-- Modelled from the spec: the `ParseElfHeaderError` enum named by
`lib.rs` but not among the staged sources. The `From<ParseElfHeaderError>`
impl in `lib.rs` matches exactly the variants `UnsupportedClass`,
`UnsupportedEncoding` and `SliceTooSmall`, so this is the whole enum. -/
inductive ParseElfHeaderError : Type
  | UnsupportedClass (e : UnsupportedClassError)
  | UnsupportedEncoding (e : UnsupportedEncodingError)
  | SliceTooSmall
  deriving DecidableEq

/-- Modelled from the spec: the `ElfHeader::parse` function `ElfFile::parse`
calls as its first step, not among the staged sources. Its error type (see
`ParseElfHeaderError`) has exactly the size/class/encoding variants of the
spec's Raw construction (section 4.4) — length at least 16 and at least
`expected_header_size(class)`, class and encoding resolved from the
identification block, no field value checked — so it is Raw construction
with `TooSmall` spelled `SliceTooSmall`; in particular it cannot signal the
header-size-field error `InvalidElfHeaderSize`. -/
def ElfHeader.parse {α ε : Type} (cd : ClassParseD α) (ed : EncodingD ε)
    (slice : List Nat) : Except ParseElfHeaderError (ElfHeader α ε) :=
  match ElfIdent.new slice with
  | none => .error .SliceTooSmall
  | some ident =>
    match cd.from_elf_class ident.cls with
    | .error e => .error (.UnsupportedClass e)
    | .ok c =>
      match ed.from_elf_encoding ident.encoding with
      | .error e => .error (.UnsupportedEncoding e)
      | .ok en =>
        if slice.length < cd.expected_elf_header_size c then .error .SliceTooSmall
        else .ok ⟨slice, c, en⟩

/-- `ParseElfFileError` (`lib.rs`): every error `ElfFile::parse` can
return. -/
inductive ParseElfFileError : Type
  | UnsupportedClass (e : UnsupportedClassError)
  | UnsupportedEncoding (e : UnsupportedEncodingError)
  | InvalidMagicBytes
  | UnsupportedElfHeaderVersion
  | NonZeroPadding
  | UnsupportedElfFileVersion
  | InvalidElfHeaderSize
  | InvalidProgramHeaderSize
  | InvalidSectionHeaderSize
  | TooSmallForHeader
  deriving DecidableEq

/-- `impl From<ParseElfHeaderError> for ParseElfFileError` (`lib.rs`). -/
def ParseElfFileError.fromHeaderError : ParseElfHeaderError → ParseElfFileError
  | .UnsupportedClass e => .UnsupportedClass e
  | .UnsupportedEncoding e => .UnsupportedEncoding e
  | .SliceTooSmall => .TooSmallForHeader

/-- `ElfHeader::<C, E>::CURRENT_FILE_VERSION`. Modelled from the spec: the
constant is not among the staged sources; Scenario A's `file_version=1`
validates and any other version is `UnsupportedElfFileVersion`, so the
current file version is `1`. -/
def ElfHeader.CURRENT_FILE_VERSION : Nat := 1

/-- The validated `ElfFile`: the (buffer, class, encoding) triple retained
on success. `class` is a Lean keyword, hence `cls`. -/
structure ElfFile (α ε : Type) where
  bytes : List Nat
  cls : α
  encoding : ε
  deriving DecidableEq

/-- `ElfFile::parse` (`lib.rs`): header parse, then in order the magic
bytes, identification header version, identification padding, file
version, declared header size and declared program header size checks.
The source compares `header_size()`/`program_header_size()` (`u16`) against
`expected_*_size().try_into().unwrap()`; the comparison is on the numeric
values here, and the safety claim proves the conversions in range for the
shipped classes. -/
def ElfFile.parse {α ε : Type} (cd : ClassParseD α) (ed : EncodingD ε)
    (slice : List Nat) : Except ParseElfFileError (ElfFile α ε) :=
  match ElfHeader.parse cd ed slice with
  | .error e => .error (ParseElfFileError.fromHeaderError e)
  | .ok elf_header =>
    let elf_ident := elf_header.identifier
    if elf_ident.magic ≠ ElfIdent.MAGIC_BYTES then
      .error .InvalidMagicBytes
    else if elf_ident.header_version ≠ ElfIdent.CURRENT_HEADER_VERSION then
      .error .UnsupportedElfHeaderVersion
    else if ¬ elf_ident.padding.all (fun v => v == 0) then
      .error .NonZeroPadding
    else if ElfHeader.file_version cd ed elf_header ≠ ElfHeader.CURRENT_FILE_VERSION then
      .error .UnsupportedElfFileVersion
    else if ElfHeader.header_size cd ed elf_header <
        cd.expected_elf_header_size elf_header.cls then
      .error .InvalidElfHeaderSize
    else if ElfHeader.program_header_size cd ed elf_header <
        cd.expected_program_header_size elf_header.cls then
      .error .InvalidProgramHeaderSize
    else .ok ⟨slice, elf_header.cls, elf_header.encoding⟩

/-- `ElfFile::header` (`lib.rs`): the header view re-derived from the
retained triple. -/
def ElfFile.header {α ε : Type} (f : ElfFile α ε) : ElfHeader α ε :=
  ⟨f.bytes, f.cls, f.encoding⟩

/-! Concrete buffers of the spec's scenarios (section 8). -/

/-- Scenario A: a 64-bit little-endian buffer — magic `7F 45 4C 46`, class
tag 2, encoding tag 1, identification header version 1, zero padding;
elf_type 2 at offset 16, machine 62 at 18, file_version 1 at 20, zero
entry/offsets/flags, header_size 64 at offset 52, program header entry
size 56 at 54, program_header_count 1 at 56. -/
def scenarioA : List Nat :=
  [0x7F, 0x45, 0x4C, 0x46, 2, 1, 1, 0, 0, 0, 0, 0, 0, 0, 0, 0,
   2, 0, 62, 0, 1, 0, 0, 0,
   0, 0, 0, 0, 0, 0, 0, 0,
   0, 0, 0, 0, 0, 0, 0, 0,
   0, 0, 0, 0, 0, 0, 0, 0,
   0, 0, 0, 0,
   64, 0, 56, 0, 1, 0, 0, 0, 0, 0, 0, 0]

/-- Scenario B: the Scenario A bytes with the declared `header_size` field
(little-endian `u16` at offset 52) lowered to 32. -/
def scenarioB : List Nat := scenarioA.set 52 32

/-- The Scenario B bytes with the first magic byte zeroed: long enough,
recognized class and encoding tags, invalid magic, declared header size
below the 64-bit minimum. -/
def invalidMagicSmallHeader : List Nat := scenarioB.set 0 0

/-- Every header field accessor of class value `x` decodes a scalar lying
within the class's expected header size: each field offset plus the decoded
width (2 for `u16`, 4 for `u32`, `uw` for the class-sized scalar) is at
most `expected_elf_header_size`. -/
abbrev headerAccessorBounds {α : Type} (cd : ClassParseD α) (x : α) (uw : Nat) : Prop :=
  cd.elf_type_offset x + 2 ≤ cd.expected_elf_header_size x ∧
  cd.machine_offset x + 2 ≤ cd.expected_elf_header_size x ∧
  cd.file_version_offset x + 4 ≤ cd.expected_elf_header_size x ∧
  cd.entry_offset x + uw ≤ cd.expected_elf_header_size x ∧
  cd.flags_offset x + 4 ≤ cd.expected_elf_header_size x ∧
  cd.header_size_offset x + 2 ≤ cd.expected_elf_header_size x ∧
  cd.program_header_offset_offset x + uw ≤ cd.expected_elf_header_size x ∧
  cd.program_header_count_offset x + 2 ≤ cd.expected_elf_header_size x ∧
  cd.program_header_size_offset x + 2 ≤ cd.expected_elf_header_size x ∧
  cd.section_header_offset_offset x + uw ≤ cd.expected_elf_header_size x ∧
  cd.section_header_count_offset x + 2 ≤ cd.expected_elf_header_size x ∧
  cd.section_header_size_offset x + 2 ≤ cd.expected_elf_header_size x ∧
  cd.section_header_string_table_index_offset x + 2 ≤ cd.expected_elf_header_size x

/-- Every program-header field accessor of class value `x` decodes a scalar
lying within the class's expected program header size. -/
abbrev programHeaderAccessorBounds {α : Type} (cd : ClassParseD α) (x : α) (uw : Nat) : Prop :=
  cd.segment_type_offset x + 4 ≤ cd.expected_program_header_size x ∧
  cd.segment_flags_offset x + 4 ≤ cd.expected_program_header_size x ∧
  cd.segment_file_offset_offset x + uw ≤ cd.expected_program_header_size x ∧
  cd.segment_file_size_offset x + uw ≤ cd.expected_program_header_size x ∧
  cd.segment_virtual_address_offset x + uw ≤ cd.expected_program_header_size x ∧
  cd.segment_physical_address_offset x + uw ≤ cd.expected_program_header_size x ∧
  cd.segment_memory_size_offset x + uw ≤ cd.expected_program_header_size x ∧
  cd.segment_alignment_offset x + uw ≤ cd.expected_program_header_size x

/-- The byte width of the class-sized scalar each `Merge<Class32, Class64>`
arm decodes: the `A` arm reads a `u32`, the `B` arm a `u64`. -/
def merge32_64UsizeWidth : Merge Class32 Class64 → Nat
  | .A _ => 4
  | .B _ => 8

/-- The parse outcome is anything but `InvalidSectionHeaderSize`. -/
def resultNotSectionSizeError {α ε : Type} :
    Except ParseElfFileError (ElfFile α ε) → Prop
  | .error .InvalidSectionHeaderSize => False
  | _ => True

/-! Helper lemmas shared by the claim theorems. -/

/-- A successful Raw header construction keeps the whole slice, whose
length is at least the resolved class's expected header size. -/
theorem new_ok_sound {α ε : Type} {cd : ClassParseD α} {ed : EncodingD ε}
    {slice : List Nat} {h : ElfHeader α ε}
    (hok : ElfHeader.new cd ed slice = .ok h) :
    h.bytes = slice ∧ cd.expected_elf_header_size h.cls ≤ slice.length := by
  unfold ElfHeader.new at hok
  rcases hI : ElfIdent.new slice with _ | i <;> simp only [hI] at hok
  · cases hok
  rcases hC : cd.from_elf_class i.cls with e | c <;> simp only [hC] at hok
  · cases hok
  rcases hE : ed.from_elf_encoding i.encoding with e | en <;> simp only [hE] at hok
  · cases hok
  by_cases hL : slice.length < cd.expected_elf_header_size c
  · rw [if_pos hL] at hok; cases hok
  · rw [if_neg hL] at hok
    cases hok
    exact ⟨rfl, Nat.le_of_not_lt hL⟩

/-- A successful minimal header construction keeps the whole slice, whose
length is at least the resolved class's expected header size. -/
theorem minimal_parse_ok_sound {α ε : Type} {cd : ClassParseD α} {ed : EncodingD ε}
    {slice : List Nat} {h : ElfHeader α ε}
    (hok : ElfHeader.minimal_parse cd ed slice = .ok h) :
    h.bytes = slice ∧ cd.expected_elf_header_size h.cls ≤ slice.length := by
  unfold ElfHeader.minimal_parse at hok
  rcases hI : ElfIdent.minimal_parse slice with e | i <;> simp only [hI] at hok
  · cases hok
  rcases hC : cd.from_elf_class i.cls with e | c <;> simp only [hC] at hok
  · cases hok
  rcases hE : ed.from_elf_encoding i.encoding with e | en <;> simp only [hE] at hok
  · cases hok
  by_cases hL : slice.length < cd.expected_elf_header_size c
  · rw [if_pos hL] at hok; cases hok
  · rw [if_neg hL] at hok
    by_cases hS : ElfHeader.header_size cd ed ⟨slice, c, en⟩ < cd.expected_elf_header_size c
    · rw [if_pos hS] at hok; cases hok
    · rw [if_neg hS] at hok
      cases hok
      exact ⟨rfl, Nat.le_of_not_lt hL⟩

/-- A successful program-header construction keeps the whole slice, whose
length is at least the class's expected program header size. -/
theorem ph_parse_some_sound {α ε : Type} {cd : ClassParseD α} {c : α} {e : ε}
    {slice : List Nat} {ph : RawProgramHeader α ε}
    (hok : RawProgramHeader.parse cd c e slice = some ph) :
    ph.bytes = slice ∧ ph.cls = c ∧
      cd.expected_program_header_size c ≤ slice.length := by
  unfold RawProgramHeader.parse at hok
  by_cases hL : slice.length < cd.expected_program_header_size c
  · rw [if_pos hL] at hok; cases hok
  · rw [if_neg hL] at hok
    cases hok
    exact ⟨rfl, rfl, Nat.le_of_not_lt hL⟩

/-- A successful raw identification parse keeps the 16-byte prefix of a
buffer at least 16 bytes long. -/
theorem ident_new_sound {slice : List Nat} {i : ElfIdent}
    (hok : ElfIdent.new slice = some i) :
    i = ⟨slice.take 16⟩ ∧ 16 ≤ slice.length := by
  unfold ElfIdent.new at hok
  by_cases hL : 16 ≤ slice.length
  · rw [if_pos hL] at hok
    cases hok
    exact ⟨rfl, hL⟩
  · rw [if_neg hL] at hok; cases hok

/-- A successful minimal identification parse implies a successful raw
identification parse of the same view. -/
theorem ident_minimal_ok_new {slice : List Nat} {i : ElfIdent}
    (hok : ElfIdent.minimal_parse slice = .ok i) :
    ElfIdent.new slice = some i := by
  unfold ElfIdent.minimal_parse at hok
  rcases hI : ElfIdent.new slice with _ | j <;> simp only [hI] at hok
  · cases hok
  by_cases hc : j.cls = 1 ∨ j.cls = 2
  · rw [if_pos hc] at hok
    by_cases he : j.encoding = 1 ∨ j.encoding = 2
    · rw [if_pos he] at hok
      cases hok
      rfl
    · rw [if_neg he] at hok; cases hok
  · rw [if_neg hc] at hok; cases hok

/-- With the identification block parsed, the tags resolved and the buffer
long enough, `ElfHeader::parse` yields the view over the whole slice. -/
theorem header_parse_ok_of {α ε : Type} {cd : ClassParseD α} {ed : EncodingD ε}
    {slice : List Nat} {i : ElfIdent} {c : α} {en : ε}
    (hI : ElfIdent.new slice = some i)
    (hC : cd.from_elf_class i.cls = .ok c)
    (hE : ed.from_elf_encoding i.encoding = .ok en)
    (hLen : cd.expected_elf_header_size c ≤ slice.length) :
    ElfHeader.parse cd ed slice = .ok ⟨slice, c, en⟩ := by
  unfold ElfHeader.parse
  simp only [hI, hC, hE]
  rw [if_neg (Nat.not_lt.mpr hLen)]

/-- With the minimal identification parse passed, the tags resolved and the
buffer long enough, `ElfHeader::minimal_parse` reduces to the declared
header-size check. -/
theorem minimal_parse_reduces {α ε : Type} {cd : ClassParseD α} {ed : EncodingD ε}
    {slice : List Nat} {i : ElfIdent} {c : α} {en : ε}
    (hI : ElfIdent.minimal_parse slice = .ok i)
    (hC : cd.from_elf_class i.cls = .ok c)
    (hE : ed.from_elf_encoding i.encoding = .ok en)
    (hLen : cd.expected_elf_header_size c ≤ slice.length) :
    ElfHeader.minimal_parse cd ed slice =
      if ElfHeader.header_size cd ed ⟨slice, c, en⟩ < cd.expected_elf_header_size c then
        .error .InvalidElfHeaderSize
      else .ok ⟨slice, c, en⟩ := by
  unfold ElfHeader.minimal_parse
  simp only [hI, hC, hE]
  rw [if_neg (Nat.not_lt.mpr hLen)]

/-! The claim theorems. -/

/-- C2: the per-class field offsets reproduce the on-disk
program-header-entry order exactly — for `Class32` the offsets of
segment_type, file_offset, virtual_address, physical_address, file_size,
memory_size, flags, alignment are 0, 4, 8, 12, 16, 20, 24, 28 with
expected size 32; for `Class64` the offsets of segment_type, flags,
file_offset, virtual_address, physical_address, file_size, memory_size,
alignment are 0, 4, 8, 16, 24, 32, 40, 48 with expected size 56. -/
theorem c2_program_header_entry_layout :
    class32D.segment_type_offset .mk = 0 ∧
    class32D.segment_file_offset_offset .mk = 4 ∧
    class32D.segment_virtual_address_offset .mk = 8 ∧
    class32D.segment_physical_address_offset .mk = 12 ∧
    class32D.segment_file_size_offset .mk = 16 ∧
    class32D.segment_memory_size_offset .mk = 20 ∧
    class32D.segment_flags_offset .mk = 24 ∧
    class32D.segment_alignment_offset .mk = 28 ∧
    class32D.expected_program_header_size .mk = 32 ∧
    class64D.segment_type_offset .mk = 0 ∧
    class64D.segment_flags_offset .mk = 4 ∧
    class64D.segment_file_offset_offset .mk = 8 ∧
    class64D.segment_virtual_address_offset .mk = 16 ∧
    class64D.segment_physical_address_offset .mk = 24 ∧
    class64D.segment_file_size_offset .mk = 32 ∧
    class64D.segment_memory_size_offset .mk = 40 ∧
    class64D.segment_alignment_offset .mk = 48 ∧
    class64D.expected_program_header_size .mk = 56 := by
  decide

/-- C5, counterexample: in the 32-bit program-header entry the flags field
does NOT follow the alignment field — `segment_flags_offset` is 24,
`segment_alignment_offset` is 28, so the flags offset is strictly less
than the alignment offset, refuting the claimed inequality at the concrete
class value `Class32.mk`. -/
theorem c5_counterexample_flags_precede_alignment_32 :
    class32D.segment_flags_offset Class32.mk = 24 ∧
    class32D.segment_alignment_offset Class32.mk = 28 ∧
    class32D.segment_flags_offset Class32.mk <
      class32D.segment_alignment_offset Class32.mk := by
  decide

/-- C5, amended: in the 32-bit program-header entry layout the flags field
PRECEDES the alignment field (following memory_size), and in the 64-bit
layout the flags field precedes the file offset field. -/
theorem c5_amended_flags_order :
    class32D.segment_memory_size_offset .mk < class32D.segment_flags_offset .mk ∧
    class32D.segment_flags_offset .mk < class32D.segment_alignment_offset .mk ∧
    class64D.segment_flags_offset .mk < class64D.segment_file_offset_offset .mk := by
  decide

/-- C6: the concrete Scenario A buffer (64-bit little-endian, canonical
magic, class tag 2, encoding tag 1, header version 1, zero padding,
elf_type 2, machine 62, file_version 1, header_size 64, program-header
entry size 56, program_header_count 1) parses successfully, and on the
result the header's `elf_type()` is `ElfType::EXECUTABLE` and `machine()`
is `Machine::X86_64`. -/
theorem c6_scenario_a_validates :
    ElfFile.parse class64D littleEndianD scenarioA = .ok ⟨scenarioA, .mk, .mk⟩ ∧
    ElfHeader.elf_type class64D littleEndianD
      (ElfFile.header ⟨scenarioA, .mk, .mk⟩) = ElfType.EXECUTABLE ∧
    ElfHeader.machine class64D littleEndianD
      (ElfFile.header ⟨scenarioA, .mk, .mk⟩) = Machine.X86_64 ∧
    ElfHeader.program_header_count class64D littleEndianD
      (ElfFile.header ⟨scenarioA, .mk, .mk⟩) = 1 := by
  decide

/-- C8: for every `Merge<A, B>` and class tag, when `A` resolves the tag
with value `a` the merge resolves to the `A` arm holding `a` (whatever `B`
does), otherwise to `B`'s result mapped into the `B` arm; on the `A` arm
the class-sized decodes are the `From`-widenings of `A`'s decodes. In
particular `Merge<Class32, Class64>` resolves tag 1 to the 32-bit arm —
even a merge of `Class32` with itself, where both arms accept, picks the
first — and widens its scalar outputs through `u64: From<u32>` and
`i64: From<i32>`. -/
theorem c8_merge_first_operand_tie_break :
    (∀ (α β : Type) (a : ClassParseD α) (b : ClassParseD β) (wu : Nat → Nat)
        (wi : Int → Int) (tag : Nat) (x : α), a.from_elf_class tag = .ok x →
        (mergeD a b wu wi).from_elf_class tag = .ok (.A x)) ∧
    (∀ (α β : Type) (a : ClassParseD α) (b : ClassParseD β) (wu : Nat → Nat)
        (wi : Int → Int) (tag : Nat) (e : UnsupportedClassError),
        a.from_elf_class tag = .error e →
        (mergeD a b wu wi).from_elf_class tag =
          (b.from_elf_class tag).map Merge.B) ∧
    (∀ (α β ε : Type) (a : ClassParseD α) (b : ClassParseD β) (wu : Nat → Nat)
        (wi : Int → Int) (ed : EncodingD ε) (x : α) (en : ε) (off : Nat)
        (data : List Nat),
        (mergeD a b wu wi).parse_class_usize_at ed (.A x) en off data =
          wu (a.parse_class_usize_at ed x en off data) ∧
        (mergeD a b wu wi).parse_class_isize_at ed (.A x) en off data =
          wi (a.parse_class_isize_at ed x en off data)) ∧
    merge32_64D.from_elf_class 1 = .ok (.A .mk) ∧
    (mergeD class32D class32D id id).from_elf_class 1 = .ok (.A .mk) ∧
    (∀ (ε : Type) (ed : EncodingD ε) (en : ε) (off : Nat) (data : List Nat),
        merge32_64D.parse_class_usize_at ed (.A .mk) en off data =
          u64_from_u32 (class32D.parse_class_usize_at ed .mk en off data) ∧
        merge32_64D.parse_class_isize_at ed (.A .mk) en off data =
          i64_from_i32 (class32D.parse_class_isize_at ed .mk en off data)) := by
  refine ⟨?_, ?_, ?_, ?_, ?_, ?_⟩
  · intro α β a b wu wi tag x hx
    simp [mergeD, hx]
  · intro α β a b wu wi tag e he
    simp [mergeD, he]
  · intro α β ε a b wu wi ed x en off data
    exact ⟨rfl, rfl⟩
  · decide
  · decide
  · intro ε ed en off data
    exact ⟨rfl, rfl⟩

/-- C9: `RawProgramHeader::parse` yields no view exactly when the slice is
shorter than the class's expected program header size and the view over
the whole slice otherwise, regardless of the byte contents; no field value
is validated at construction, and `segment_type()` is the raw decoded
`u32` as an opaque tagged integer. -/
theorem c9_ph_parse_length_only :
    (∀ (α ε : Type) (cd : ClassParseD α) (c : α) (e : ε) (slice : List Nat),
        (RawProgramHeader.parse cd c e slice = none ↔
          slice.length < cd.expected_program_header_size c) ∧
        (cd.expected_program_header_size c ≤ slice.length →
          RawProgramHeader.parse cd c e slice = some ⟨slice, c, e⟩)) ∧
    (∀ (α ε : Type) (cd : ClassParseD α) (ed : EncodingD ε)
        (ph : RawProgramHeader α ε),
        RawProgramHeader.segment_type cd ed ph =
          ⟨ed.parse_u32_at ph.encoding (cd.segment_type_offset ph.cls) ph.bytes⟩) := by
  constructor
  · intro α ε cd c e slice
    constructor
    · unfold RawProgramHeader.parse
      by_cases hL : slice.length < cd.expected_program_header_size c
      · simp [hL]
      · simp [hL]
    · intro hL
      unfold RawProgramHeader.parse
      rw [if_neg (Nat.not_lt.mpr hL)]
  · intro α ε cd ed ph
    rfl

/-- C10: for every input slice (and any class and encoding capabilities),
`ElfFile::parse` never returns `InvalidSectionHeaderSize` — the variant is
declared but no step of the validation pipeline produces it. -/
theorem c10_section_header_size_never_checked :
    ∀ (α ε : Type) (cd : ClassParseD α) (ed : EncodingD ε) (slice : List Nat),
      resultNotSectionSizeError (ElfFile.parse cd ed slice) := by
  intro α ε cd ed slice
  unfold ElfFile.parse
  rcases hp : ElfHeader.parse cd ed slice with e | h <;> simp only [hp]
  · cases e <;> exact trivial
  · repeat' first
      | exact trivial
      | split

/-- C7: every slice shorter than 16 bytes makes both `ElfHeader::new` and
`ElfHeader::minimal_parse` fail with a size error; Raw construction
succeeds exactly when the slice is at least 16 bytes long, the class and
encoding tags are recognized and the slice is at least the class's expected
header size; and its only errors are `TooSmall`, `UnsupportedClass` and
`UnsupportedEncoding` (no field value beyond tag recognizability). -/
theorem c7_raw_construction_characterisation :
    (∀ (α ε : Type) (cd : ClassParseD α) (ed : EncodingD ε) (slice : List Nat),
        slice.length < 16 →
        ElfHeader.new cd ed slice = .error .TooSmall ∧
        ElfHeader.minimal_parse cd ed slice = .error (.IdentError .TooSmall)) ∧
    (∀ (α ε : Type) (cd : ClassParseD α) (ed : EncodingD ε) (slice : List Nat),
        (∃ h, ElfHeader.new cd ed slice = .ok h) ↔
          ∃ i c en, ElfIdent.new slice = some i ∧ 16 ≤ slice.length ∧
            cd.from_elf_class i.cls = .ok c ∧
            ed.from_elf_encoding i.encoding = .ok en ∧
            cd.expected_elf_header_size c ≤ slice.length) ∧
    (∀ (α ε : Type) (cd : ClassParseD α) (ed : EncodingD ε) (slice : List Nat)
        (err : ParseElfHeaderRawError), ElfHeader.new cd ed slice = .error err →
        err = .TooSmall ∨ (∃ t, err = .UnsupportedClass t) ∨
          (∃ t, err = .UnsupportedEncoding t)) := by
  refine ⟨?_, ?_, ?_⟩
  · intro α ε cd ed slice hshort
    have hI : ElfIdent.new slice = none := by
      unfold ElfIdent.new
      rw [if_neg (Nat.not_le.mpr hshort)]
    constructor
    · unfold ElfHeader.new
      simp only [hI]
    · unfold ElfHeader.minimal_parse ElfIdent.minimal_parse
      simp only [hI]
  · intro α ε cd ed slice
    constructor
    · rintro ⟨h, hok⟩
      unfold ElfHeader.new at hok
      rcases hI : ElfIdent.new slice with _ | i <;> simp only [hI] at hok
      · cases hok
      rcases hC : cd.from_elf_class i.cls with e | c <;> simp only [hC] at hok
      · cases hok
      rcases hE : ed.from_elf_encoding i.encoding with e | en <;> simp only [hE] at hok
      · cases hok
      by_cases hL : slice.length < cd.expected_elf_header_size c
      · rw [if_pos hL] at hok; cases hok
      · exact ⟨i, c, en, rfl, (ident_new_sound hI).2, hC, hE, Nat.le_of_not_lt hL⟩
    · rintro ⟨i, c, en, hI, h16, hC, hE, hL⟩
      refine ⟨⟨slice, c, en⟩, ?_⟩
      unfold ElfHeader.new
      simp only [hI, hC, hE]
      rw [if_neg (Nat.not_lt.mpr hL)]
  · intro α ε cd ed slice err herr
    rcases err with _ | t | t
    · exact Or.inl rfl
    · exact Or.inr (Or.inl ⟨t, rfl⟩)
    · exact Or.inr (Or.inr ⟨t, rfl⟩)

/-- C3, counterexample: the concrete buffer `invalidMagicSmallHeader` is 64
bytes long, its class and encoding tags are recognized, its magic bytes
are invalid and its declared `header_size` (32) is below the 64-bit
minimum (64) — yet `ElfFile::parse` returns `InvalidMagicBytes`, not
`InvalidElfHeaderSize`, refuting the claimed error order. -/
theorem c3_counterexample_magic_wins :
    invalidMagicSmallHeader.length = 64 ∧
    class64D.from_elf_class
      ((⟨invalidMagicSmallHeader.take 16⟩ : ElfIdent).cls) = .ok .mk ∧
    littleEndianD.from_elf_encoding
      ((⟨invalidMagicSmallHeader.take 16⟩ : ElfIdent).encoding) = .ok .mk ∧
    (⟨invalidMagicSmallHeader.take 16⟩ : ElfIdent).magic ≠ ElfIdent.MAGIC_BYTES ∧
    ElfHeader.header_size class64D littleEndianD
      ⟨invalidMagicSmallHeader, .mk, .mk⟩ = 32 ∧
    class64D.expected_elf_header_size .mk = 64 ∧
    ElfFile.parse class64D littleEndianD invalidMagicSmallHeader =
      .error .InvalidMagicBytes ∧
    ¬ ElfFile.parse class64D littleEndianD invalidMagicSmallHeader =
      .error .InvalidElfHeaderSize := by
  decide

/-- C3, amended: the header construction step of `ElfFile::parse` is
Raw-level (its error type has only size/class/encoding variants), so the
magic-bytes check precedes the declared-header-size check: for every
buffer whose raw identification parses, whose tags resolve and whose
length reaches the class's expected header size, invalid magic bytes yield
`InvalidMagicBytes` — whatever the declared `header_size` field holds. -/
theorem c3_amended_invalid_magic_reported {α ε : Type} (cd : ClassParseD α)
    (ed : EncodingD ε) (slice : List Nat) (i : ElfIdent) (c : α) (en : ε)
    (hI : ElfIdent.new slice = some i)
    (hC : cd.from_elf_class i.cls = .ok c)
    (hE : ed.from_elf_encoding i.encoding = .ok en)
    (hLen : cd.expected_elf_header_size c ≤ slice.length)
    (hM : i.magic ≠ ElfIdent.MAGIC_BYTES) :
    ElfFile.parse cd ed slice = .error .InvalidMagicBytes := by
  have hid : (⟨slice, c, en⟩ : ElfHeader α ε).identifier = i := by
    rw [(ident_new_sound hI).1]
    rfl
  unfold ElfFile.parse
  simp only [header_parse_ok_of hI hC hE hLen, hid]
  rw [if_pos hM]

/-- C3, witness: the amended theorem at the concrete buffer. -/
theorem c3_amended_witness :
    ElfFile.parse class64D littleEndianD invalidMagicSmallHeader =
      .error .InvalidMagicBytes :=
  c3_amended_invalid_magic_reported class64D littleEndianD invalidMagicSmallHeader
    ⟨invalidMagicSmallHeader.take 16⟩ .mk .mk (by decide) (by decide) (by decide)
    (by decide) (by decide)

/-- C4: given a buffer that passes the identification block's minimal
validation, has recognized class and encoding tags and is at least the
class's expected header size long, `ElfHeader::minimal_parse` fails with
`InvalidElfHeaderSize` exactly when the self-declared `header_size` field
is below the class's expected header size, while Raw construction on the
same buffer succeeds; and the Scenario B buffer (Scenario A with
`header_size = 32`) draws `InvalidElfHeaderSize` from full-file
validation. -/
theorem c4_minimal_header_size_gate {α ε : Type} (cd : ClassParseD α)
    (ed : EncodingD ε) (slice : List Nat) (i : ElfIdent) (c : α) (en : ε)
    (hI : ElfIdent.minimal_parse slice = .ok i)
    (hC : cd.from_elf_class i.cls = .ok c)
    (hE : ed.from_elf_encoding i.encoding = .ok en)
    (hLen : cd.expected_elf_header_size c ≤ slice.length) :
    (ElfHeader.minimal_parse cd ed slice = .error .InvalidElfHeaderSize ↔
      ElfHeader.header_size cd ed ⟨slice, c, en⟩ <
        cd.expected_elf_header_size c) ∧
    (∃ h, ElfHeader.new cd ed slice = .ok h) ∧
    ElfFile.parse class64D littleEndianD scenarioB =
      .error .InvalidElfHeaderSize := by
  refine ⟨?_, ?_, by decide⟩
  · rw [minimal_parse_reduces hI hC hE hLen]
    by_cases hS : ElfHeader.header_size cd ed ⟨slice, c, en⟩ <
        cd.expected_elf_header_size c
    · simp [hS]
    · simp [hS]
  · refine ⟨⟨slice, c, en⟩, ?_⟩
    unfold ElfHeader.new
    simp only [ident_minimal_ok_new hI, hC, hE]
    rw [if_neg (Nat.not_lt.mpr hLen)]

/-- C4, witness: the theorem at the Scenario B buffer. -/
theorem c4_witness_scenario_b :
    (ElfHeader.minimal_parse class64D littleEndianD scenarioB =
        .error .InvalidElfHeaderSize ↔
      ElfHeader.header_size class64D littleEndianD ⟨scenarioB, .mk, .mk⟩ <
        class64D.expected_elf_header_size .mk) ∧
    (∃ h, ElfHeader.new class64D littleEndianD scenarioB = .ok h) ∧
    ElfFile.parse class64D littleEndianD scenarioB =
      .error .InvalidElfHeaderSize :=
  c4_minimal_header_size_gate class64D littleEndianD scenarioB
    ⟨scenarioB.take 16⟩ .mk .mk (by decide) (by decide) (by decide) (by decide)

/-- C1: no public operation panics or reads out of bounds — every header
view built by `ElfHeader::new` or `ElfHeader::minimal_parse` and every
program-header view built by `RawProgramHeader::parse` covers a slice at
least the class's expected structure size, and for `Class32`, `Class64`
and their `Merge` every field accessor's offset plus decoded width fits in
that expected size; consequently the `unreachable!()` branch of
`identifier()` is never reached (the expected header sizes are at least
16) and the `try_into().unwrap()` conversions of the expected sizes to
`u16` in `ElfFile::parse` cannot fail (they are at most 65535). -/
theorem c1_no_panic_no_out_of_bounds :
    (∀ (α ε : Type) (cd : ClassParseD α) (ed : EncodingD ε) (slice : List Nat)
        (h : ElfHeader α ε), ElfHeader.new cd ed slice = .ok h →
        h.bytes = slice ∧ cd.expected_elf_header_size h.cls ≤ h.bytes.length) ∧
    (∀ (α ε : Type) (cd : ClassParseD α) (ed : EncodingD ε) (slice : List Nat)
        (h : ElfHeader α ε), ElfHeader.minimal_parse cd ed slice = .ok h →
        h.bytes = slice ∧ cd.expected_elf_header_size h.cls ≤ h.bytes.length) ∧
    (∀ (α ε : Type) (cd : ClassParseD α) (c : α) (e : ε) (slice : List Nat)
        (ph : RawProgramHeader α ε),
        RawProgramHeader.parse cd c e slice = some ph →
        ph.bytes = slice ∧
          cd.expected_program_header_size ph.cls ≤ ph.bytes.length) ∧
    (∀ x : Class32, headerAccessorBounds class32D x 4 ∧
        programHeaderAccessorBounds class32D x 4 ∧
        16 ≤ class32D.expected_elf_header_size x ∧
        class32D.expected_elf_header_size x ≤ 65535 ∧
        class32D.expected_program_header_size x ≤ 65535) ∧
    (∀ x : Class64, headerAccessorBounds class64D x 8 ∧
        programHeaderAccessorBounds class64D x 8 ∧
        16 ≤ class64D.expected_elf_header_size x ∧
        class64D.expected_elf_header_size x ≤ 65535 ∧
        class64D.expected_program_header_size x ≤ 65535) ∧
    (∀ m : Merge Class32 Class64,
        headerAccessorBounds merge32_64D m (merge32_64UsizeWidth m) ∧
        programHeaderAccessorBounds merge32_64D m (merge32_64UsizeWidth m) ∧
        16 ≤ merge32_64D.expected_elf_header_size m ∧
        merge32_64D.expected_elf_header_size m ≤ 65535 ∧
        merge32_64D.expected_program_header_size m ≤ 65535) ∧
    (∀ (α ε : Type) (cd : ClassParseD α) (ed : EncodingD ε) (slice : List Nat)
        (h : ElfHeader α ε), (∀ x : α, 16 ≤ cd.expected_elf_header_size x) →
        ElfHeader.new cd ed slice = .ok h → ¬ h.identifier_unreachable) ∧
    (∀ (α ε : Type) (cd : ClassParseD α) (ed : EncodingD ε) (slice : List Nat)
        (h : ElfHeader α ε), (∀ x : α, 16 ≤ cd.expected_elf_header_size x) →
        ElfHeader.minimal_parse cd ed slice = .ok h →
        ¬ h.identifier_unreachable) := by
  refine ⟨?_, ?_, ?_, ?_, ?_, ?_, ?_, ?_⟩
  · intro α ε cd ed slice h hok
    obtain ⟨hb, hl⟩ := new_ok_sound hok
    exact ⟨hb, by rw [hb]; exact hl⟩
  · intro α ε cd ed slice h hok
    obtain ⟨hb, hl⟩ := minimal_parse_ok_sound hok
    exact ⟨hb, by rw [hb]; exact hl⟩
  · intro α ε cd c e slice ph hok
    obtain ⟨hb, hc, hl⟩ := ph_parse_some_sound hok
    exact ⟨hb, by rw [hb, hc]; exact hl⟩
  · intro x
    cases x
    decide
  · intro x
    cases x
    decide
  · intro m
    rcases m with a | b
    · cases a; decide
    · cases b; decide
  · intro α ε cd ed slice h h16 hok hu
    obtain ⟨hb, hl⟩ := new_ok_sound hok
    unfold ElfHeader.identifier_unreachable at hu
    rw [hb] at hu
    exact Nat.not_lt.mpr (Nat.le_trans (h16 h.cls) hl) hu
  · intro α ε cd ed slice h h16 hok hu
    obtain ⟨hb, hl⟩ := minimal_parse_ok_sound hok
    unfold ElfHeader.identifier_unreachable at hu
    rw [hb] at hu
    exact Nat.not_lt.mpr (Nat.le_trans (h16 h.cls) hl) hu

end Elf
